import Mathlib

/-!
Verification of the engineering-reference case matcher of the
h2o-allegiant-backend repository.

The repository contains two implementations of the matcher:

* `app/agents/tools/intelligent_case_filter.py` (called V1 below): the
  keyword-weighted two-pass filter; its `get_engineering_references` is the
  one imported by `app/agents/proposal_agent.py`.
* `app/agents/tools/intelligent_case_filter_v2.py` (called V2 below): the
  semantic matcher with `UserContext` / `MatchScore` dataclasses.

Modelling conventions (shallow embedding):

* Python floats are modelled as `ℚ`.  Every constant appearing in the
  scoring code (8, 15, 12, 5, 10, 2, -5, 1.5, 0.5, 0.8, 1.2, 86.4, 24,
  5.451, 3785.41, 0.1) is an exact decimal, and every claim settled here
  is about comparisons that are exact for these values.
* Python str is `String`; the substring operator `in` is `pyIn`;
  `str.lower()` is `lowerStr` (ASCII lowering, which is what the data uses).
* The two Python source files as provided are stored with a double
  encoding artifact: the EN DASH U+2013 appears as the byte sequence of
  its UTF-8 encoding decoded as Mac Roman (rendered as three characters),
  and likewise the SUPERSCRIPT THREE U+00B3 in unit strings.  The test
  files of the repository carry the clean characters, so the embedding
  uses the intended characters U+2013 and U+00B3.
* Python dicts of constant data are association lists, preserving the
  dict insertion order; Python sets that are only iterated are lists in a
  fixed order (all properties proved about them are order-insensitive).
* Fallible code returns `Option`; the V2 entry point, which contains
  explicit `raise ModelRetry(...)` statements, returns
  `Except String MatchResult` where `Except.error` models the raise.
* Regular expressions are embedded as deterministic scanners.  Each
  pattern used by the source is such that the greedy leftmost scan agrees
  with the backtracking search of the `re` module (no pattern needs the
  engine to give back characters, which is argued in comments at the
  corresponding definitions).
-/

/-! ## Basic string machinery -/

/-- Contiguous sublist test on character lists, scanning left to right. -/
def containsSub (needle : List Char) : List Char → Bool
  | [] => needle.isEmpty
  | c :: rest => needle.isPrefixOf (c :: rest) || containsSub needle rest

/-- Python substring test: `needle in hay` on strings. -/
def pyIn (needle hay : String) : Bool :=
  containsSub needle.data hay.data

/-- Python `str.lower()` (ASCII case folding, which covers the corpus
text), computed on the character list so that the kernel can evaluate
it. -/
def lowerStr (s : String) : String :=
  ⟨s.data.map Char.toLower⟩

/-- Python `s.replace("_", " ")`. -/
def underscoreToSpace (s : String) : String :=
  ⟨s.data.map (fun c => if c = '_' then ' ' else c)⟩

/-- Split a character list at every separator character, keeping empty
pieces, mirroring `String.split`. -/
def splitChars (p : Char → Bool) : List Char → List (List Char)
  | [] => [[]]
  | c :: rest =>
    if p c then [] :: splitChars p rest
    else
      match splitChars p rest with
      | w :: ws => (c :: w) :: ws
      | [] => [[c]]

/-- Python `str.split()` with no argument: split on whitespace runs, no
empty pieces. -/
def splitWords (s : String) : List String :=
  ((splitChars Char.isWhitespace s.data).map (fun w => (⟨w⟩ : String))).filter
    (fun w => w ≠ "")

/-- Python `str.strip()`: drop whitespace from both ends. -/
def trimChars (l : List Char) : List Char :=
  ((l.dropWhile Char.isWhitespace).reverse.dropWhile Char.isWhitespace).reverse

/-- Python `", ".join(l)`. -/
def joinComma (l : List String) : String :=
  String.intercalate ", " l

/-- Python `"/".join(l)`. -/
def joinSlash (l : List String) : String :=
  String.intercalate "/" l

/-- Python `" ".join(l)`. -/
def joinSpace (l : List String) : String :=
  String.intercalate " " l

/-- Python `a or b` for an optional string `a` and default `b`:
`None` and the empty string are falsy. -/
def pyOrStr (a : Option String) (b : String) : String :=
  match a with
  | none => b
  | some s => if s = "" then b else s

/-- Lookup in an association list modelling a Python dict, with
`dict.get(key, [])` semantics. -/
def dictGet (d : List (String × List String)) (k : String) : List String :=
  match d.find? (fun p => p.1 = k) with
  | some p => p.2
  | none => []

/-- Digit run to a natural number. -/
def digitsToNat (l : List Char) : Nat :=
  l.foldl (fun n c => 10 * n + (c.toNat - 48)) 0

/-- Powers of ten over `ℚ`, structurally recursive so that the kernel can
evaluate it. -/
def pow10 : Nat → ℚ
  | 0 => 1
  | n + 1 => 10 * pow10 n

/-- Value of a matched numeric group of shape digits, optional dot,
digits (as produced by the regex groups below), as Python `float` reads
it, idealized over `ℚ`. -/
def ratOfNumChars (l : List Char) : ℚ :=
  let intPart := l.takeWhile Char.isDigit
  let rest := l.dropWhile Char.isDigit
  let fracPart := match rest with
    | _ :: fs => fs
    | [] => []
  (digitsToNat intPart : ℚ) + (digitsToNat fracPart : ℚ) / pow10 fracPart.length

/-! ## Constant tables of the source -/

/-- CONTAMINANT_TOKENS of V2 (intelligent_case_filter_v2.py, lines 35-43).
Note the pH token list is the bare substring token. -/
def CONTAMINANT_TOKENS_V2 : List (String × List String) :=
  [ ("organics", ["bod", "cod", "fog"]),
    ("suspended", ["tss"]),
    ("nutrients", ["nitrogen", "phosphorus", "ammonia", "tn", "tp"]),
    ("metals", ["metal", "chromium", "nickel", "copper", "zinc", "lead"]),
    ("hydrocarbons", ["oil", "hydrocarbon", "petroleum"]),
    ("ph", ["ph"]),
    ("color", ["color", "dyes"]) ]

/-- CONTAMINANT_TOKENS of V1 (intelligent_case_filter.py, lines 20-28).
The source comment on the pH entry reads: Fixed: More specific to avoid
false positives (e.g., phosphorus).  The fourth pH token is the string
ph surrounded by single quotation marks in the source. -/
def CONTAMINANT_TOKENS_V1 : List (String × List String) :=
  [ ("organics", ["bod", "cod", "fog"]),
    ("suspended", ["tss"]),
    ("nutrients", ["nitrogen", "phosphorus", "ammonia", "tn", "tp"]),
    ("metals", ["metal", "chromium", "nickel", "copper", "zinc", "lead"]),
    ("hydrocarbons", ["oil", "hydrocarbon", "petroleum"]),
    ("ph", ["ph:", "ph level", "ph=", "\x27ph\x27"]),
    ("color", ["color", "dyes"]) ]

/-- SECTOR_SYNONYMS of V2. -/
def SECTOR_SYNONYMS : List (String × List String) :=
  [ ("commercial", ["business", "retail", "service", "hospitality", "office", "building"]),
    ("industrial", ["manufacturing", "production", "processing", "factory", "plant", "facility"]),
    ("municipal", ["government", "public", "utility", "city", "sewage", "wastewater"]),
    ("residential", ["domestic", "home", "housing", "apartment", "family", "dwelling"]) ]

/-- SUBSECTOR_SYNONYMS of V2. -/
def SUBSECTOR_SYNONYMS : List (String × List String) :=
  [ ("restaurant", ["dining", "food service", "kitchen", "culinary", "catering", "cafe", "eatery"]),
    ("hotel", ["hospitality", "lodging", "accommodation", "guest", "resort", "motel"]),
    ("shopping_mall", ["retail", "mall", "shopping center", "commercial center"]),
    ("office_building", ["office", "commercial building", "corporate", "business center"]),
    ("food_service", ["food", "beverage", "catering", "kitchen", "dining", "culinary"]),
    ("food_processing", ["food manufacturing", "food production", "food industry", "processing plant"]),
    ("beverage_bottling", ["bottling", "drinks", "beverage production", "bottling plant"]),
    ("textile_manufacturing", ["textile", "fabric", "garment", "dyeing", "textile industry"]),
    ("pharmaceutical_manufacturing", ["pharmaceutical", "pharma", "medicine", "drug production"]),
    ("chemical_processing", ["chemical", "chemical manufacturing", "chemical production"]),
    ("government_building", ["government", "public building", "municipal building"]),
    ("water_utility", ["utility", "water treatment", "water supply", "municipal water"]),
    ("single_home", ["home", "house", "single family", "residential", "domestic"]),
    ("multi_family", ["apartment", "multi-family", "residential complex", "housing"]) ]

/-- WEIGHTS of V2: semantic 1.5, contaminant 1.0, flow 0.5. -/
def wSemantic : ℚ := 3 / 2

/-- Contaminant weight of V2. -/
def wContaminant : ℚ := 1

/-- Flow weight of V2. -/
def wFlow : ℚ := 1 / 2

/-! ## Data model -/

/-- One knowledge-base case.  Python cases are dicts read with
`case.get(key, "")` (and `case.get("id", 0)`), so absent keys are modelled
by the default values used at those call sites. -/
structure Case where
  id : Nat := 0
  application_type : String := ""
  description : String := ""
  influent_characteristics : String := ""
  typical_flow_range : String := ""
  recommended_treatment_train : String := ""
  local_regulations : String := ""
deriving Repr, DecidableEq

/-- UserContext dataclass of V2.  The contaminant set is modelled as a
list in a fixed iteration order; all results proved below are insensitive
to that order. -/
structure UserContext where
  sector : String
  subsector : String
  contaminants : List String
  flow : Option ℚ
deriving Repr, DecidableEq

/-- MatchScore dataclass of V2. -/
structure MatchScore where
  case_id : Nat
  total_score : ℚ
  semantic_score : ℚ
  contaminant_score : ℚ
  flow_score : ℚ
  explanation : List String
deriving Repr, DecidableEq

/-! ## Flow range parsing (shared verbatim by V1 parse_flow_range and V2
SemanticCaseMatcher._parse_flow_range; the two bodies are identical, V1
only differs by a bare except clause, and the embedding is total). -/

/-- The EN DASH character used by the flow-range regexes. -/
def enDash : Char := Char.ofNat 8211

/-- Characters kept by the cleaning substitution
`re.sub(r"[^0-9 dash endash dot comma]", " ", flow_text)` (character class
written here in words: digits, hyphen, EN DASH, dot, comma). -/
def keepChar (c : Char) : Bool :=
  c.isDigit || c = '-' || c = enDash || c = '.' || c = ','

/-- The cleaning substitution: every character outside the kept class is
replaced by one space.  After this step the only whitespace character in
the list is the plain space. -/
def cleanFlow (s : String) : List Char :=
  s.data.map (fun c => if keepChar c then c else ' ')

/-- Match the group `digits (dot digits)?` at the head of the list,
returning the matched characters and the remainder.  This is the first
capture group of both regexes of the parser.  No backtracking is needed:
if the optional fraction matches, the character after it is not a digit,
and if the continuation then fails, the alternative with the empty
fraction faces the dot character, on which every continuation used below
(space run, dash, digit) also fails. -/
def matchNumAt (l : List Char) : Option (List Char × List Char) :=
  let d1 := l.takeWhile Char.isDigit
  let r1 := l.dropWhile Char.isDigit
  if d1 = [] then none
  else
    match r1 with
    | '.' :: rest =>
      let d2 := rest.takeWhile Char.isDigit
      let r2 := rest.dropWhile Char.isDigit
      if d2 = [] then some (d1, r1) else some (d1 ++ '.' :: d2, r2)
    | _ => some (d1, r1)

/-- Greedy match of `(comma digits+)*` with explicit structural fuel (each
step consumes at least two characters, so fuel equal to the list length
never runs out; the recursion is structural in the fuel so that the kernel
can evaluate it). -/
def commaGroupsFuel : Nat → List Char → List Char × List Char
  | 0, l => ([], l)
  | fuel + 1, l =>
    match l with
    | ',' :: rest =>
      let d := rest.takeWhile Char.isDigit
      if d = [] then ([], ',' :: rest)
      else
        let (cs, r) := commaGroupsFuel fuel (rest.dropWhile Char.isDigit)
        (',' :: (d ++ cs), r)
    | l => ([], l)

/-- Greedy match of `(comma digits+)*`: the repeated comma groups of the
second capture group of the range regex.  Returns the matched characters
and the remainder. -/
def commaGroups (l : List Char) : List Char × List Char :=
  commaGroupsFuel l.length l

/-- Match the group `digits (comma digits)* (dot digits)?` at the head of
the list: the second capture group of the range regex.  The group ends
the pattern, so the greedy scan is exact.  When the leading number
already carries a fraction, the regex has consumed the dot-digits part
and neither comma groups nor a second fraction can follow inside the
group, which the first branch mirrors. -/
def matchMaxAt (l : List Char) : Option (List Char) :=
  match matchNumAt l with
  | none => none
  | some (g, r) =>
    if g.contains '.' then some g
    else
      let (cs, r2) := commaGroups r
      match r2 with
      | '.' :: rest =>
        let d := rest.takeWhile Char.isDigit
        if d = [] then some (g ++ cs) else some (g ++ cs ++ '.' :: d)
      | _ => some (g ++ cs)

/-- Attempt the full range pattern
`(digits(.digits)?) spaces* [dash endash] spaces* (digits(,digits)*(.digits)?)`
at the current position, returning the two captured groups. -/
def matchRangeAt (l : List Char) : Option (List Char × List Char) :=
  match matchNumAt l with
  | none => none
  | some (g1, r1) =>
    let r2 := r1.dropWhile (fun c => c = ' ')
    match r2 with
    | c :: rest =>
      if c = '-' ∨ c = enDash then
        let r3 := rest.dropWhile (fun c => c = ' ')
        match matchMaxAt r3 with
        | some g2 => some (g1, g2)
        | none => none
      else none
    | [] => none

/-- Leftmost search: try the matcher at every position, left to right. -/
def searchFrom (m : List Char → Option α) : List Char → Option α
  | [] => none
  | c :: rest =>
    match m (c :: rest) with
    | some g => some g
    | none => searchFrom m rest

/-- parse_flow_range (V1 lines 221-249) and _parse_flow_range (V2 lines
304-337): clean the text, search the range pattern, otherwise search a
single number and return the 20 percent band, otherwise None.  Commas are
removed from the second group only, mirroring
`float(range_match.group(2).replace(",", ""))`. -/
def parse_flow_range (flow_text : String) : Option (ℚ × ℚ) :=
  if flow_text = "" then none
  else
    let fc := cleanFlow flow_text
    match searchFrom matchRangeAt fc with
    | some (g1, g2) =>
      some (ratOfNumChars g1, ratOfNumChars (g2.filter (fun c => c ≠ ',')))
    | none =>
      match searchFrom (fun l => (matchNumAt l).map (fun p => p.1)) fc with
      | some g =>
        let v := ratOfNumChars g
        some (v * (4 / 5), v * (6 / 5))
      | none => none

/-! ## V2 scoring engine (class SemanticCaseMatcher) -/

/-- Searchable case text of V2 calculate_semantic_score:
`" ".join([application_type, description]).lower()`. -/
def caseText (case : Case) : String :=
  lowerStr (case.application_type ++ " " ++ case.description)

/-- Python truthiness of the optional flow float: `None` and `0.0` are
falsy. -/
def flowTruthy : Option ℚ → Bool
  | none => false
  | some v => v ≠ 0

/-- SemanticCaseMatcher.calculate_semantic_score (V2 lines 168-232).
Sector synonyms and subsector strategies contribute in the order of the
source; the explanation list keeps the sector entry first. -/
def calculate_semantic_score (user_sector user_subsector : String) (case : Case) :
    ℚ × List String :=
  let ct := caseText case
  let sectorPart : ℚ × List String :=
    if user_sector = "" then (0, [])
    else
      match (user_sector :: dictGet SECTOR_SYNONYMS user_sector).find?
          (fun t => pyIn t ct) with
      | some t => (8, ["Sector match: " ++ t ++ " in case"])
      | none => (0, [])
  let subsectorPart : ℚ × List String :=
    if user_subsector = "" then (0, [])
    else if pyIn (underscoreToSpace user_subsector) ct then
      (15, ["Direct subsector match: " ++ user_subsector])
    else
      match (dictGet SUBSECTOR_SYNONYMS user_subsector).find? (fun t => pyIn t ct) with
      | some t => (12, ["Synonym match: " ++ t])
      | none =>
        let ws := splitWords (underscoreToSpace user_subsector)
        let matched := ws.filter (fun w => pyIn w ct)
        if matched = [] then (0, [])
        else
          (5 * (matched.length : ℚ) / (ws.length : ℚ),
            ["Partial match: " ++ joinComma matched])
  (sectorPart.1 + subsectorPart.1, sectorPart.2 ++ subsectorPart.2)

/-- SemanticCaseMatcher.calculate_contaminant_score (V2 lines 234-260):
five points per user contaminant category with a token appearing in the
influent text, one token per category. -/
def calculate_contaminant_score (user_contaminants : List String) (case : Case) :
    ℚ × List String :=
  let cc := lowerStr case.influent_characteristics
  user_contaminants.foldl
    (fun acc category =>
      if (dictGet CONTAMINANT_TOKENS_V2 category).any (fun t => pyIn t cc) then
        (acc.1 + 5, acc.2 ++ [category])
      else acc)
    ((0 : ℚ), ([] : List String))

/-- SemanticCaseMatcher.calculate_flow_score (V2 lines 262-302).  The
guard `if not user_flow` treats both `None` and `0.0` as missing flow.
Numeric renderings inside the explanation strings are abstracted (the
source interpolates the numbers with .0f formatting); no claim depends
on them. -/
def calculate_flow_score (user_flow : Option ℚ) (case : Case) : ℚ × String :=
  if ¬ flowTruthy user_flow then (0, "No flow data")
  else
    match user_flow with
    | none => (0, "No flow data")
    | some f =>
      if case.typical_flow_range = "" then (0, "Case has no flow data")
      else
        match parse_flow_range case.typical_flow_range with
        | none => (0, "Cannot parse flow: " ++ case.typical_flow_range)
        | some (case_min, case_max) =>
          if case_min ≤ f ∧ f ≤ case_max then (10, "Perfect: flow in range")
          else if case_min / 2 ≤ f ∧ f ≤ case_max * 2 then (5, "Close: flow near range")
          else if case_min / 5 ≤ f ∧ f ≤ case_max * 5 then (2, "Scalable: flow from range")
          else (-5, "Mismatch: flow far from range")

/-- SemanticCaseMatcher.score_case (V2 lines 339-389): weighted total and
the explanation trail in semantic, contaminant, flow order. -/
def score_case (case : Case) (user_context : UserContext) : MatchScore :=
  let sem := calculate_semantic_score user_context.sector user_context.subsector case
  let con := calculate_contaminant_score user_context.contaminants case
  let flo := calculate_flow_score user_context.flow case
  let total := sem.1 * wSemantic + con.1 * wContaminant + flo.1 * wFlow
  let explanation :=
    sem.2
      ++ (if con.2 = [] then [] else ["Contaminants: " ++ joinComma con.2])
      ++ (if flowTruthy user_context.flow then ["Flow: " ++ flo.2] else [])
  { case_id := case.id
    total_score := total
    semantic_score := sem.1
    contaminant_score := con.1
    flow_score := flo.1
    explanation := explanation }

/-! ## Stable descending sort

Python `list.sort(key=..., reverse=True)` is a stable sort; a stable sort
is uniquely determined by the key order, so the insertion sort below is a
faithful model of the source call
`scored_cases.sort(key=lambda x: x[1].total_score, reverse=True)`. -/

/-- Insert an element into a descending-sorted list, before the first
element of strictly smaller key.  Elements already in the list that share
the key of the inserted element stay in front of it, which together with
the fold below reproduces stability. -/
def insertDescBy (key : α → ℚ) (x : α) : List α → List α
  | [] => [x]
  | y :: ys => if key y ≤ key x then x :: y :: ys else y :: insertDescBy key x ys

/-- Stable descending insertion sort. -/
def sortDescBy (key : α → ℚ) (l : List α) : List α :=
  l.foldr (insertDescBy key) []

/-- Membership in the insertion result. -/
theorem mem_insertDescBy {key : α → ℚ} {x a : α} :
    ∀ {l : List α}, a ∈ insertDescBy key x l → a = x ∨ a ∈ l
  | [], h => by
    simp [insertDescBy] at h
    exact Or.inl h
  | y :: ys, h => by
    by_cases hk : key y ≤ key x
    · simp [insertDescBy, hk] at h
      rcases h with h | h | h
      · exact Or.inl h
      · exact Or.inr (by simp [h])
      · exact Or.inr (by simp [h])
    · simp [insertDescBy, hk] at h
      rcases h with h | h
      · exact Or.inr (by simp [h])
      · rcases mem_insertDescBy h with h | h
        · exact Or.inl h
        · exact Or.inr (by simp [h])

/-- Membership after sorting. -/
theorem mem_sortDescBy {key : α → ℚ} {a : α} :
    ∀ {l : List α}, a ∈ sortDescBy key l → a ∈ l
  | [], h => by simp [sortDescBy] at h
  | y :: ys, h => by
    rcases mem_insertDescBy (l := sortDescBy key ys) h with h | h
    · simp [h]
    · exact List.mem_cons_of_mem _ (mem_sortDescBy h)

/-- The ordering invariant delivered by the stable sort: keys descend,
and on equal keys the tag (the original corpus position) strictly
ascends. -/
def StableDesc (key : α → ℚ) (tag : α → Nat) (a b : α) : Prop :=
  key b ≤ key a ∧ (key a = key b → tag a < tag b)

/-- Inserting an element whose tag is strictly below every tag in the
list preserves the invariant. -/
theorem pairwise_insertDescBy {key : α → ℚ} {tag : α → Nat} {x : α} :
    ∀ {l : List α}, List.Pairwise (StableDesc key tag) l →
      (∀ y ∈ l, tag x < tag y) →
      List.Pairwise (StableDesc key tag) (insertDescBy key x l)
  | [], _, _ => by simp [insertDescBy, List.Pairwise]
  | y :: ys, hp, ht => by
    rcases List.pairwise_cons.mp hp with ⟨hy, hys⟩
    by_cases hk : key y ≤ key x
    · simp only [insertDescBy, if_pos hk]
      refine List.pairwise_cons.mpr ⟨?_, hp⟩
      intro z hz
      rcases List.mem_cons.mp hz with hz | hz
      · subst hz
        exact ⟨hk, fun _ => ht z (List.mem_cons_self z ys)⟩
      · rcases hy z hz with ⟨h1, _⟩
        exact ⟨le_trans h1 hk, fun _ => ht z (List.mem_cons_of_mem _ hz)⟩
    · simp only [insertDescBy, if_neg hk]
      push_neg at hk
      refine List.pairwise_cons.mpr ⟨?_, ?_⟩
      · intro z hz
        rcases mem_insertDescBy hz with hz | hz
        · exact hz ▸ ⟨le_of_lt hk, fun h => absurd h (ne_of_gt hk)⟩
        · exact hy z hz
      · exact pairwise_insertDescBy hys fun z hz => ht z (List.mem_cons_of_mem _ hz)

/-- Sorting a list of strictly ascending tags yields the stable
descending invariant. -/
theorem pairwise_sortDescBy {key : α → ℚ} {tag : α → Nat} :
    ∀ {l : List α}, List.Pairwise (fun a b => tag a < tag b) l →
      List.Pairwise (StableDesc key tag) (sortDescBy key l)
  | [], _ => by simp [sortDescBy, List.Pairwise]
  | y :: ys, hp => by
    rcases List.pairwise_cons.mp hp with ⟨hy, hys⟩
    refine pairwise_insertDescBy (pairwise_sortDescBy hys) ?_
    intro z hz
    exact hy z (mem_sortDescBy hz)

/-! ## V2 orchestrator (SemanticCaseMatcher.find_best_matches) -/

/-- One scored corpus entry, tagged with its original corpus position so
that stability can be stated.  The source keeps `(case, score)` pairs in
corpus order; the position is made explicit here. -/
abbrev ScoredCase := Nat × Case × MatchScore

/-- Corpus position of a scored entry. -/
def scoredIdx (e : ScoredCase) : Nat := e.1

/-- Total score of a scored entry, the sort key of the source. -/
def totalOf (e : ScoredCase) : ℚ := e.2.2.total_score

/-- Score every case of the corpus in order, tagging entries with their
positions (the loop `for case in applications: scored_cases.append(...)`
of V2 lines 433-436). -/
def scoreIndexed (user_context : UserContext) : Nat → List Case → List ScoredCase
  | _, [] => []
  | n, c :: cs => (n, c, score_case c user_context) :: scoreIndexed user_context (n + 1) cs

/-- Every tagged entry records the score of its own case, and the case is
drawn from the corpus. -/
theorem mem_scoreIndexed {user_context : UserContext} {e : ScoredCase} :
    ∀ {n : Nat} {l : List Case}, e ∈ scoreIndexed user_context n l →
      e.2.1 ∈ l ∧ e.2.2 = score_case e.2.1 user_context
  | n, [], h => by simp [scoreIndexed] at h
  | n, c :: cs, h => by
    rcases List.mem_cons.mp h with h | h
    · subst h
      exact ⟨List.mem_cons_self c cs, rfl⟩
    · rcases mem_scoreIndexed h with ⟨h1, h2⟩
      exact ⟨List.mem_cons_of_mem _ h1, h2⟩

/-- Tags in a scored corpus start at the given offset. -/
theorem le_idx_scoreIndexed {user_context : UserContext} {e : ScoredCase} :
    ∀ {n : Nat} {l : List Case}, e ∈ scoreIndexed user_context n l → n ≤ scoredIdx e
  | n, [], h => by simp [scoreIndexed] at h
  | n, c :: cs, h => by
    rcases List.mem_cons.mp h with h | h
    · subst h
      exact le_refl n
    · exact le_trans (Nat.le_succ n) (le_idx_scoreIndexed h)

/-- Tags of a scored corpus strictly ascend. -/
theorem pairwise_idx_scoreIndexed {user_context : UserContext} :
    ∀ {n : Nat} {l : List Case},
      List.Pairwise (fun a b => scoredIdx a < scoredIdx b) (scoreIndexed user_context n l)
  | n, [] => by simp [scoreIndexed, List.Pairwise]
  | n, c :: cs => by
    refine List.pairwise_cons.mpr ⟨?_, pairwise_idx_scoreIndexed⟩
    intro e he
    exact lt_of_lt_of_le (Nat.lt_succ_self n) (le_idx_scoreIndexed he)

/-- SemanticCaseMatcher.find_best_matches (V2 lines 391-452), with the
knowledge-base corpus made an explicit argument (the source loads it from
the module-level singleton) and corpus positions tagged.  The body is:
empty-corpus guard, score all, stable descending sort on total_score,
slice to top_n, keep strictly positive totals.  The lru_cache decorator
is a pure memoization of this function and has no behavioral content. -/
def find_best_matches (corpus : List Case) (sector subsector : String)
    (contaminants : List String) (flow : Option ℚ) (top_n : Nat) : List ScoredCase :=
  if corpus = [] then []
  else
    let user_context : UserContext :=
      { sector := sector, subsector := subsector,
        contaminants := contaminants, flow := flow }
    let scored := scoreIndexed user_context 0 corpus
    let sorted := sortDescBy totalOf scored
    (sorted.take top_n).filter (fun e => decide (0 < totalOf e))

/-! ## V1 keyword machinery (intelligent_case_filter.py) -/

/-- Searchable case text of V1 keyword_score: application_type,
description and influent_characteristics joined and lowered. -/
def caseTextV1 (case : Case) : String :=
  lowerStr (case.application_type ++ " " ++ case.description ++ " "
    ++ case.influent_characteristics)

/-- keyword_score (V1 lines 106-144): five points per subsector keyword
found, two per sector keyword, one per contaminant category with a token
in the text.  The V1 source indexes CONTAMINANT_TOKENS[category]
directly; every category passed by its callers is a key of the dict, so
the defaulting lookup coincides on all reachable inputs. -/
def keyword_score (case : Case) (subsector_keywords sector_keywords : List String)
    (contaminant_categories : List String) : Nat :=
  let ct := caseTextV1 case
  (subsector_keywords.filter (fun k => pyIn k ct)).length * 5
    + (sector_keywords.filter (fun k => pyIn k ct)).length * 2
    + (contaminant_categories.filter
        (fun cat => (dictGet CONTAMINANT_TOKENS_V1 cat).any (fun t => pyIn t ct))).length

/-- is_flow_compatible (V1 lines 252-275).  Division over `ℚ` models the
Python float division; the call sites guarantee a nonzero user flow (the
two-pass filter only reaches this code under a truthy flow). -/
def is_flow_compatible (user_flow : ℚ) (case_flow_range : String) : Bool :=
  match parse_flow_range case_flow_range with
  | none => true
  | some (case_min, case_max) =>
    if case_min ≤ user_flow ∧ user_flow ≤ case_max then true
    else if user_flow < case_min then decide (case_min / user_flow < 10)
    else decide (user_flow / case_max < 10)

/-- The lenient keep test of pass two for sector-relevant candidates (V1
lines 398-417): keep on flow compatibility, else keep when the user flow
is below five times the parsed upper bound and above the lower bound,
else keep when the range does not parse. -/
def pass2KeepHigh (user_flow : ℚ) (case : Case) : Bool :=
  if is_flow_compatible user_flow case.typical_flow_range then true
  else
    match parse_flow_range case.typical_flow_range with
    | some (case_min, case_max) => decide (case_min ≤ user_flow ∧ user_flow ≤ case_max * 5)
    | none => true

/-- two_pass_filter (V1 lines 344-449), with the user context already
extracted (the source recomputes it from the run context; extraction is
deterministic, so passing the extracted values is equivalent).  Pass one
keeps positively scored cases, sorts them stably by descending score and
takes eight candidates; when no case scores, the source substitutes the
first three corpus cases as fallback.  Pass two, under a truthy user
flow, partitions candidates by combined keyword score at least five and
applies the flow compatibility tests, keeping the previous candidates
when nothing passes.  The final slice keeps three cases. -/
def two_pass_filter (applications : List Case)
    (subsector_keywords sector_keywords : List String)
    (contaminant_categories : List String) (user_flow : Option ℚ) : List Case :=
  if applications = [] then []
  else
    let scored := (applications.map
        (fun c => (keyword_score c subsector_keywords sector_keywords
          contaminant_categories, c))).filter (fun p => decide (0 < p.1))
    let sorted := sortDescBy (fun p => (p.1 : ℚ)) scored
    let candidates0 := (sorted.take 8).map (fun p => p.2)
    let candidates := if candidates0 = [] then applications.take 3 else candidates0
    if ¬ flowTruthy user_flow then candidates.take 3
    else
      match user_flow with
      | none => candidates.take 3
      | some uf =>
        let parts := candidates.partition
          (fun c => decide (5 ≤ keyword_score c subsector_keywords sector_keywords []))
        let compatible := parts.1.filter (pass2KeepHigh uf)
          ++ parts.2.filter (fun c => is_flow_compatible uf c.typical_flow_range)
        let candidates2 := if compatible = [] then candidates else compatible
        candidates2.take 3

/-! ## Flow detection -/

/-- normalize_flow_to_m3_day (V1 lines 147-179): unit conversion table
with identity fallback.  The unit keys containing the SUPERSCRIPT THREE
are written with the intended character (see the header note on the
encoding artifact). -/
def normalize_flow_to_m3_day (value : ℚ) (unit : String) : ℚ :=
  let u : String := ⟨trimChars (lowerStr unit).data⟩
  let conversions : List (String × ℚ) :=
    [ ("m³/day", 1), ("m3/day", 1), ("m³/d", 1), ("m3/d", 1),
      ("l/s", 432 / 5), ("lps", 432 / 5),
      ("m³/h", 24), ("m3/h", 24), ("m³/hr", 24), ("m3/hr", 24),
      ("gpm", 5451 / 1000), ("mgd", 378541 / 100) ]
  let factor := match conversions.find? (fun p => p.1 = u) with
    | some p => p.2
    | none => 1
  value * factor

/-- Python `float(s)` on plain decimal literals with optional sign,
returning `none` on anything else (the call site catches the ValueError
and continues; the source data uses plain decimals, exponents are not
modelled). -/
def pyFloat? (s : String) : Option ℚ :=
  let cs := trimChars s.data
  let signAndRest : ℚ × List Char :=
    match cs with
    | '-' :: r => (-1, r)
    | '+' :: r => (1, r)
    | r => (1, r)
  let ip := signAndRest.2.takeWhile Char.isDigit
  let r1 := signAndRest.2.dropWhile Char.isDigit
  match r1 with
  | [] => if ip = [] then none else some (signAndRest.1 * (digitsToNat ip : ℚ))
  | '.' :: fp =>
    if fp.all Char.isDigit ∧ (ip ≠ [] ∨ fp ≠ []) then
      some (signAndRest.1 *
        ((digitsToNat ip : ℚ) + (digitsToNat fp : ℚ) / pow10 fp.length))
    else none
  | _ => none

/-- One structured field of FlexibleWaterProjectData.technical_sections. -/
structure FieldRec where
  label : String := ""
  value : Option String := none
  unit : Option String := none
deriving Repr, DecidableEq

/-- One technical section. -/
structure SectionRec where
  fields : List FieldRec := []
deriving Repr, DecidableEq

/-- The per-field step of detect_user_flow: labels Water Consumption or
Wastewater Generated with a truthy value that parses as a float are
normalized and accepted only inside the sanity bound; everything else
falls through to the next field. -/
def fieldFlow? (f : FieldRec) : Option ℚ :=
  if f.label = "Water Consumption" ∨ f.label = "Wastewater Generated" then
    match f.value with
    | none => none
    | some v =>
      if v = "" then none
      else
        match pyFloat? v with
        | none => none
        | some x =>
          let normalized := normalize_flow_to_m3_day x (pyOrStr f.unit "m³/day")
          if 1 / 10 ≤ normalized ∧ normalized ≤ 1000000 then some normalized else none
  else none

/-- detect_user_flow (V1 lines 182-218): scan the technical sections in
order and return the first accepted flow value. -/
def detect_user_flow (sections : List SectionRec) : Option ℚ :=
  (sections.flatMap (fun s => s.fields)).findSome? fieldFlow?

/-- Match the flow pattern `number spaces m [³3] / d` at the current
position (first pattern of V2 _detect_flow_from_water_data, line 546).
Matching the longer `/day` variant as well is harmless for the second
pattern because the first pattern is tried on the whole string first and
already succeeds on every match of the second. -/
def matchFlowUnitAt (tail : List Char) (l : List Char) : Option (List Char) :=
  match matchNumAt l with
  | none => none
  | some (g, r) =>
    let r2 := r.dropWhile Char.isWhitespace
    match r2 with
    | 'm' :: c :: '/' :: 'd' :: rest =>
      if (c = '³' ∨ c = '3') ∧ tail.isPrefixOf rest then some g else none
    | _ => none

/-- Match the pattern `number spaces cubic .* day` (third pattern of V2
line 548).  The dot of the regex does not cross a newline, so the literal
day must occur inside the newline-free segment following cubic. -/
def matchCubicAt (l : List Char) : Option (List Char) :=
  match matchNumAt l with
  | none => none
  | some (g, r) =>
    let r2 := r.dropWhile Char.isWhitespace
    if ['c', 'u', 'b', 'i', 'c'].isPrefixOf r2 then
      let seg := (r2.drop 5).takeWhile (fun c => c ≠ '\n')
      if containsSub ['d', 'a', 'y'] seg then some g else none
    else none

/-- Match the pattern `flow spaces [:=]? spaces number ...` (fourth
pattern of V2 line 549).  The trailing optional unit group always
matches (possibly empty) and does not affect the captured number.  When
the optional separator is consumed and no number follows, the
alternative without the separator also fails, because the character
after the spaces would be the separator itself, so the deterministic
scan agrees with the backtracking engine. -/
def matchFlowLabelAt (l : List Char) : Option (List Char) :=
  match l with
  | 'f' :: 'l' :: 'o' :: 'w' :: r =>
    let r2 := r.dropWhile Char.isWhitespace
    let r3 := match r2 with
      | c :: rest => if c = ':' ∨ c = '=' then rest.dropWhile Char.isWhitespace else r2
      | [] => r2
    match matchNumAt r3 with
    | some (g, _) => some g
    | none => none
  | _ => none

/-- _detect_flow_from_water_data (V2 lines 531-561), as a function of the
lowered serialized dump: the four patterns are tried in order over the
whole string, and the first captured number is returned. -/
def detect_flow_from_dump (water_dump : String) : Option ℚ :=
  let l := (lowerStr water_dump).data
  match searchFrom (matchFlowUnitAt []) l with
  | some g => some (ratOfNumChars g)
  | none =>
    match searchFrom (matchFlowUnitAt ['a', 'y']) l with
    | some g => some (ratOfNumChars g)
    | none =>
      match searchFrom matchCubicAt l with
      | some g => some (ratOfNumChars g)
      | none =>
        match searchFrom matchFlowLabelAt l with
        | some g => some (ratOfNumChars g)
        | none => none

/-! ## Contaminant classification and context extraction -/

/-- The contaminant detection loop shared by both versions: a category is
present when one of its tokens occurs in the lowered dump (V2
extract_user_context lines 509-518, V1 extract_user_keywords lines
95-101), instantiated with the V2 token table. -/
def detect_contaminants_v2 (water_dump : String) : List String :=
  let d := lowerStr water_dump
  (CONTAMINANT_TOKENS_V2.filter (fun p => p.2.any (fun t => pyIn t d))).map
    (fun p => p.1)

/-- The same detection loop instantiated with the V1 token table. -/
def detect_contaminants_v1 (water_dump : String) : List String :=
  let d := lowerStr water_dump
  (CONTAMINANT_TOKENS_V1.filter (fun p => p.2.any (fun t => pyIn t d))).map
    (fun p => p.1)

/-- Client metadata fields read by the matcher, with the dict.get
defaults of the source. -/
structure MetaData where
  selected_sector : String := ""
  selected_subsector : String := ""
  regulation : String := ""
deriving Repr, DecidableEq

/-- Water project data as the V2 extractor consumes it: the structured
sector and subsector attributes and the serialized model dump.  A `none`
dump models a failing `model_dump` serialization (the source catches the
exception). -/
structure WaterDataV2 where
  sector : Option String := none
  subsector : Option String := none
  dump : Option String := none
deriving Repr, DecidableEq

/-- extract_user_context (V2 lines 482-528): sector and subsector fall
back from the structured field to the client metadata to the empty
string and are lowered; contaminants and flow are detected from the
serialized dump, with the exception handlers yielding the empty set and
`None` respectively. -/
def extract_user_context (water_data : WaterDataV2) (client_metadata : MetaData) :
    UserContext :=
  { sector := lowerStr (pyOrStr water_data.sector client_metadata.selected_sector)
    subsector := lowerStr (pyOrStr water_data.subsector client_metadata.selected_subsector)
    contaminants := match water_data.dump with
      | some d => detect_contaminants_v2 d
      | none => []
    flow := match water_data.dump with
      | some d => detect_flow_from_dump d
      | none => none }

/-- Water project data as V1 consumes it: structured attributes, the
serialized dump, and the technical sections scanned by detect_user_flow. -/
structure WaterDataV1 where
  sector : Option String := none
  subsector : Option String := none
  dump : Option String := none
  technical_sections : List SectionRec := []
deriving Repr, DecidableEq

/-- extract_user_keywords (V1 lines 68-103): subsector words longer than
two characters, sector words longer than two characters, and the
detected contaminant categories. -/
def extract_user_keywords (water_data : WaterDataV1) (client_metadata : MetaData) :
    List String × List String × List String :=
  let sector := lowerStr (pyOrStr water_data.sector client_metadata.selected_sector)
  let subsector := lowerStr (pyOrStr water_data.subsector client_metadata.selected_subsector)
  let subsector_keywords :=
    if subsector = "" then []
    else (splitWords (underscoreToSpace subsector)).filter (fun w => 2 < w.length)
  let sector_keywords :=
    if sector = "" then []
    else (splitWords sector).filter (fun w => 2 < w.length)
  let contaminants := detect_contaminants_v1 (pyOrStr water_data.dump "")
  (subsector_keywords, sector_keywords, contaminants)

/-! ## Result model and entry points -/

/-- One entry of the similar_cases list of the returned MatchResult. -/
structure SimilarCase where
  application_type : String := ""
  flow_range : String := ""
  contaminants : String := ""
  treatment_train : String := ""
  why_relevant : List String := []
  regulatory_notes : String := ""
deriving Repr, DecidableEq

/-- The MatchResult dictionary returned by both entry points.  The
search_profile sub-dictionary of the source is pure reporting metadata
untouched by every claim and is not modelled; dicts that omit a key are
modelled with that field at its default. -/
structure MatchResult where
  similar_cases : List SimilarCase := []
  user_sector : String := ""
  user_subsector : String := ""
  total_found : Nat := 0
  message : String := ""
  status : String := ""
deriving Repr, DecidableEq

/-- generate_why_relevant (V1 lines 299-341): subsector bullet, sector
bullet only without a subsector bullet, contaminant bullet, flow bullet
under a truthy flow, truncated to three.  The flow bullet interpolates
the numbers in the source; the rendering is abstracted as no claim
depends on it. -/
def generate_why_relevant (case : Case)
    (subsector_keywords sector_keywords contaminant_categories : List String)
    (user_flow : Option ℚ) : List String :=
  let case_type := lowerStr case.application_type
  let subsector_matches := subsector_keywords.filter (fun k => pyIn k case_type)
  let r1 := if subsector_matches = [] then []
    else ["Subsector: " ++ joinSlash subsector_matches ++ " match"]
  let sector_matches := sector_keywords.filter (fun k => pyIn k case_type)
  let r2 := if sector_matches ≠ [] ∧ subsector_matches = [] then
      ["Sector: " ++ joinSlash sector_matches ++ " match"]
    else []
  let case_contaminants := lowerStr case.influent_characteristics
  let contaminant_matches := contaminant_categories.filter
    (fun cat => (dictGet CONTAMINANT_TOKENS_V1 cat).any (fun t => pyIn t case_contaminants))
  let r3 := if contaminant_matches = [] then []
    else ["Contaminants: " ++ joinComma contaminant_matches]
  let r4 := match user_flow with
    | none => []
    | some f =>
      if f = 0 then []
      else if is_flow_compatible f case.typical_flow_range then
        ["Flow: compatible"]
      else ["Flow: scale"]
  (r1 ++ r2 ++ r3 ++ r4).take 3

/-- detect_regulatory_mismatch (V1 lines 278-296). -/
def detect_regulatory_mismatch (user_regulation case_regulation : String) :
    Option String :=
  if user_regulation = "" ∨ case_regulation = "" then none
  else
    let u := lowerStr user_regulation
    let c := lowerStr case_regulation
    if pyIn "eu" u ∧ pyIn "epa" c then some "eu_from_epa"
    else if pyIn "epa" u ∧ pyIn "eu" c then some "epa_from_eu"
    else if u ≠ c then some "regulatory_adjustment_needed"
    else none

/-- The run context as V1 consumes it. -/
structure CtxV1 where
  water_data : Option WaterDataV1 := none
  client_metadata : MetaData := {}
deriving Repr, DecidableEq

/-- The run context as V2 consumes it. -/
structure CtxV2 where
  water_data : Option WaterDataV2 := none
  client_metadata : MetaData := {}
deriving Repr, DecidableEq

/-- get_engineering_references of V1 (intelligent_case_filter.py lines
452-588), with the knowledge base passed explicitly: a `none` knowledge
base models a failed load, which the loader converts to an empty
application list.  The function has no raise statement; the final
catch-all except of the source covers runtime faults that the pure
embedding cannot produce, so the embedding returns a plain MatchResult
on every input. -/
def get_engineering_references_v1 (kb : Option (List Case)) (ctx : CtxV1) :
    MatchResult :=
  match ctx.water_data with
  | none =>
    { similar_cases := []
      user_sector := "unknown"
      user_subsector := "unknown"
      total_found := 0
      message := "Water project data unavailable. Proceeding with general engineering analysis."
      status := "fallback" }
  | some water_data =>
    let applications := kb.getD []
    if applications = [] then
      { similar_cases := []
        message := "No reference cases available" }
    else
      let kws := extract_user_keywords water_data ctx.client_metadata
      let subsector_keywords := kws.1
      let sector_keywords := kws.2.1
      let contaminant_categories := kws.2.2
      let user_flow := detect_user_flow water_data.technical_sections
      let filtered_cases := two_pass_filter applications subsector_keywords
        sector_keywords contaminant_categories user_flow
      if filtered_cases = [] then
        { similar_cases := []
          message := "Low-signal fallback - no similar cases found" }
      else
        let similar_cases : List SimilarCase := filtered_cases.map (fun case =>
          { application_type := case.application_type
            flow_range := case.typical_flow_range
            contaminants := case.influent_characteristics
            treatment_train := case.recommended_treatment_train
            why_relevant := generate_why_relevant case subsector_keywords
              sector_keywords contaminant_categories user_flow
            regulatory_notes :=
              match detect_regulatory_mismatch ctx.client_metadata.regulation
                  case.local_regulations with
              | some m => "requires_adjustments: " ++ m
              | none => "direct_application_possible" } )
        { similar_cases := similar_cases
          user_sector := if sector_keywords = [] then "unknown" else joinSpace sector_keywords
          user_subsector := if subsector_keywords = [] then "unknown" else joinSpace subsector_keywords
          total_found := similar_cases.length
          message := "Found " ++ toString similar_cases.length
            ++ " highly relevant cases using enhanced Two-Pass filtering" }

/-- get_engineering_references of V2 (intelligent_case_filter_v2.py lines
569-693).  The function raises ModelRetry when the water data is missing
(line 600) and in the catch-all handler (line 689); the explicit raise is
the reachable one in the pure embedding and is modelled as
`Except.error` carrying the ModelRetry message. -/
def get_engineering_references_v2 (kb : Option (List Case)) (ctx : CtxV2) :
    Except String MatchResult :=
  match ctx.water_data with
  | none =>
    Except.error ("Water project data unavailable. Proceed with general engineering analysis "
      ++ "using established industry best practices.")
  | some water_data =>
    let user_context := extract_user_context water_data ctx.client_metadata
    let best_matches := find_best_matches (kb.getD []) user_context.sector
      user_context.subsector user_context.contaminants user_context.flow 3
    if best_matches = [] then
      Except.ok
        { similar_cases := []
          message := "No highly relevant cases found. Proceeding with general best practices." }
    else
      let similar_cases : List SimilarCase := best_matches.map (fun e =>
        { application_type := e.2.1.application_type
          flow_range := e.2.1.typical_flow_range
          contaminants := e.2.1.influent_characteristics
          treatment_train := e.2.1.recommended_treatment_train
          why_relevant := e.2.2.explanation
          regulatory_notes := "direct_application_possible" })
      Except.ok
        { similar_cases := similar_cases
          user_sector := user_context.sector
          user_subsector := user_context.subsector
          total_found := similar_cases.length
          message := "Found " ++ toString similar_cases.length
            ++ " highly relevant cases using semantic matching" }

/-! ## Helper lemmas for evaluation and bounds -/

/-- Powers of ten are positive. -/
theorem pow10_pos : ∀ n : Nat, 0 < pow10 n
  | 0 => by norm_num [pow10]
  | n + 1 => by
    have := pow10_pos n
    unfold pow10
    positivity

/-- Numeric groups parse to nonnegative rationals. -/
theorem ratOfNumChars_nonneg (l : List Char) : 0 ≤ ratOfNumChars l := by
  unfold ratOfNumChars
  exact add_nonneg (Nat.cast_nonneg _)
    (div_nonneg (Nat.cast_nonneg _) (le_of_lt (pow10_pos _)))

/-- Both ends of a parsed flow range are nonnegative. -/
theorem parse_flow_range_nonneg {s : String} {a b : ℚ}
    (h : parse_flow_range s = some (a, b)) : 0 ≤ a ∧ 0 ≤ b := by
  unfold parse_flow_range at h
  split at h
  · simp at h
  · dsimp only at h
    split at h
    · simp only [Option.some.injEq, Prod.mk.injEq] at h
      obtain ⟨h1, h2⟩ := h
      subst h1
      subst h2
      exact ⟨ratOfNumChars_nonneg _, ratOfNumChars_nonneg _⟩
    · split at h
      · simp only [Option.some.injEq, Prod.mk.injEq] at h
        obtain ⟨h1, h2⟩ := h
        subst h1
        subst h2
        exact ⟨mul_nonneg (ratOfNumChars_nonneg _) (by norm_num),
          mul_nonneg (ratOfNumChars_nonneg _) (by norm_num)⟩
      · simp at h

/-- Evaluation of a numeric group that is a plain digit run. -/
theorem ratOfNumChars_of_digits {l : List Char} {n : Nat}
    (h1 : l.takeWhile Char.isDigit = l) (h2 : l.dropWhile Char.isDigit = [])
    (h3 : digitsToNat l = n) : ratOfNumChars l = (n : ℚ) := by
  unfold ratOfNumChars
  rw [h1, h2]
  dsimp only
  rw [h3]
  norm_num [digitsToNat, pow10]

/-- Evaluation of the flow score under a positive user flow and a parsed
range: the body reduces to the three-way band cascade. -/
theorem calculate_flow_score_eval {case : Case} {f case_min case_max : ℚ}
    (hf : 0 < f)
    (hp : parse_flow_range case.typical_flow_range = some (case_min, case_max)) :
    calculate_flow_score (some f) case =
      (if case_min ≤ f ∧ f ≤ case_max then ((10 : ℚ), "Perfect: flow in range")
        else if case_min / 2 ≤ f ∧ f ≤ case_max * 2 then ((5 : ℚ), "Close: flow near range")
        else if case_min / 5 ≤ f ∧ f ≤ case_max * 5 then ((2 : ℚ), "Scalable: flow from range")
        else ((-5 : ℚ), "Mismatch: flow far from range")) := by
  have hne : case.typical_flow_range ≠ "" := by
    intro he
    rw [he] at hp
    simp [parse_flow_range] at hp
  have htr : flowTruthy (some f) = true := by
    simp [flowTruthy]
    exact ne_of_gt hf
  unfold calculate_flow_score
  rw [htr]
  simp only [Bool.true_eq_false, not_false_eq_true, not_true, if_false, ite_false, ite_true]
  rw [if_neg hne, hp]

/-- C2: flow sub-score bands.  For a parseable range and a positive user
flow the sub-score is exactly 10 inside the range, 5 outside but inside
the doubled band, 2 inside the five-fold band, and -5 beyond it; an
absent user flow or an unparseable case range scores 0. -/
theorem C2_flow_score_bands (case : Case) (f : ℚ) (hf : 0 < f) :
    (∀ case_min case_max : ℚ,
      parse_flow_range case.typical_flow_range = some (case_min, case_max) →
        ((case_min ≤ f ∧ f ≤ case_max) →
          (calculate_flow_score (some f) case).1 = 10) ∧
        (¬ (case_min ≤ f ∧ f ≤ case_max) →
          (case_min / 2 ≤ f ∧ f ≤ case_max * 2) →
          (calculate_flow_score (some f) case).1 = 5) ∧
        (¬ (case_min / 2 ≤ f ∧ f ≤ case_max * 2) →
          (case_min / 5 ≤ f ∧ f ≤ case_max * 5) →
          (calculate_flow_score (some f) case).1 = 2) ∧
        (¬ (case_min / 5 ≤ f ∧ f ≤ case_max * 5) →
          (calculate_flow_score (some f) case).1 = -5)) ∧
    ((calculate_flow_score none case).1 = 0) ∧
    (parse_flow_range case.typical_flow_range = none →
      (calculate_flow_score (some f) case).1 = 0) := by
  refine ⟨?_, ?_, ?_⟩
  · intro case_min case_max hp
    have hmn : 0 ≤ case_min := (parse_flow_range_nonneg hp).1
    have hmx : 0 ≤ case_max := (parse_flow_range_nonneg hp).2
    rw [calculate_flow_score_eval hf hp]
    refine ⟨?_, ?_, ?_, ?_⟩
    · intro h1
      rw [if_pos h1]
    · intro h1 h2
      rw [if_neg h1, if_pos h2]
    · intro h2 h3
      have h1 : ¬ (case_min ≤ f ∧ f ≤ case_max) := by
        intro hin
        exact h2 ⟨by linarith [hin.1], by linarith [hin.2]⟩
      rw [if_neg h1, if_neg h2, if_pos h3]
    · intro h3
      have h2 : ¬ (case_min / 2 ≤ f ∧ f ≤ case_max * 2) := by
        intro hin
        exact h3 ⟨by linarith [hin.1], by linarith [hin.2]⟩
      have h1 : ¬ (case_min ≤ f ∧ f ≤ case_max) := by
        intro hin
        exact h2 ⟨by linarith [hin.1], by linarith [hin.2]⟩
      rw [if_neg h1, if_neg h2, if_neg h3]
  · rfl
  · intro hp
    by_cases hr : case.typical_flow_range = ""
    · have htr : flowTruthy (some f) = true := by
        simp [flowTruthy]
        exact ne_of_gt hf
      unfold calculate_flow_score
      rw [htr]
      simp only [Bool.true_eq_false, not_false_eq_true, not_true, if_false, ite_false, ite_true]
      rw [if_pos hr]
    · have htr : flowTruthy (some f) = true := by
        simp [flowTruthy]
        exact ne_of_gt hf
      unfold calculate_flow_score
      rw [htr]
      simp only [Bool.true_eq_false, not_false_eq_true, not_true, if_false, ite_false, ite_true]
      rw [if_neg hr, hp]

/-- C2 witness: a concrete case with range 50 to 150 and user flow 100
receives the maximum flow sub-score. -/
theorem C2_witness :
    (0 : ℚ) < 100 ∧
      (calculate_flow_score (some 100)
        { typical_flow_range := "50-150" } : ℚ × String).1 = 10 := by
  have hp : parse_flow_range ("50-150" : String) =
      some (ratOfNumChars ['5', '0'], ratOfNumChars ['1', '5', '0']) := rfl
  have h50 : ratOfNumChars ['5', '0'] = (50 : ℚ) :=
    ratOfNumChars_of_digits rfl rfl rfl
  have h150 : ratOfNumChars ['1', '5', '0'] = (150 : ℚ) :=
    ratOfNumChars_of_digits rfl rfl rfl
  refine ⟨by norm_num, ?_⟩
  have := (C2_flow_score_bands { typical_flow_range := "50-150" } 100 (by norm_num)).1
    50 150 (by rw [hp, h50, h150])
  exact this.1 ⟨by norm_num, by norm_num⟩

/-- C10: a user flow of exactly zero is treated like an absent flow by
the flow scorer, returning sub-score 0 with the no-flow-data explanation
and never the mismatch penalty. -/
theorem C10_zero_flow_is_missing (case : Case) :
    calculate_flow_score (some 0) case = calculate_flow_score none case ∧
      calculate_flow_score (some 0) case = (0, "No flow data") ∧
      (calculate_flow_score (some 0) case).1 ≠ -5 := by
  refine ⟨rfl, rfl, ?_⟩
  have h : calculate_flow_score (some 0) case = (0, "No flow data") := rfl
  rw [h]
  norm_num

/-- C3: evaluation of parse_flow_range on the claimed inputs.  The
hyphen range, single number, empty and non-numeric cases behave as the
claim states, but on a range whose first number carries a thousands
separator the first capture group admits no comma, so the match starts
after the comma of the first number and the minimum parses as 0, not
1000 (the repository test test_parse_range expects 1000).  The
embedding is a total function, which reflects the try-except totality of
the source. -/
theorem C3_parse_flow_range_eval :
    parse_flow_range "50-5,000" = some (50, 5000) ∧
    parse_flow_range "1,000–5,000" = some (0, 5000) ∧
    parse_flow_range "1,000–5,000" ≠ some (1000, 5000) ∧
    parse_flow_range "200" = some (160, 240) ∧
    parse_flow_range "" = none ∧
    parse_flow_range "N/A" = none := by
  have h1 : parse_flow_range "50-5,000" =
      some (ratOfNumChars ['5', '0'], ratOfNumChars ['5', '0', '0', '0']) := rfl
  have h2 : parse_flow_range "1,000–5,000" =
      some (ratOfNumChars ['0', '0', '0'], ratOfNumChars ['5', '0', '0', '0']) := rfl
  have h3 : parse_flow_range "200" =
      some (ratOfNumChars ['2', '0', '0'] * (4 / 5),
        ratOfNumChars ['2', '0', '0'] * (6 / 5)) := rfl
  have e50 : ratOfNumChars ['5', '0'] = (50 : ℚ) := ratOfNumChars_of_digits rfl rfl rfl
  have e5000 : ratOfNumChars ['5', '0', '0', '0'] = (5000 : ℚ) :=
    ratOfNumChars_of_digits rfl rfl rfl
  have e0 : ratOfNumChars ['0', '0', '0'] = ((0 : Nat) : ℚ) :=
    ratOfNumChars_of_digits rfl rfl rfl
  have e200 : ratOfNumChars ['2', '0', '0'] = (200 : ℚ) :=
    ratOfNumChars_of_digits rfl rfl rfl
  refine ⟨?_, ?_, ?_, ?_, rfl, rfl⟩
  · rw [h1, e50, e5000]
  · rw [h2, e0, e5000]
    norm_num
  · rw [h2, e0, e5000]
    intro h
    simp only [Option.some.injEq, Prod.mk.injEq] at h
    have := h.1
    norm_num at this
  · rw [h3, e200]
    norm_num

/-- C4: find_best_matches returns at most top_n entries, every entry has
a strictly positive total score, scores descend, and entries of equal
score keep their corpus order (stability), so the output is a
deterministic function of the inputs. -/
theorem C4_find_matches_top_n (corpus : List Case) (sector subsector : String)
    (contaminants : List String) (flow : Option ℚ) (top_n : Nat) :
    (find_best_matches corpus sector subsector contaminants flow top_n).length ≤ top_n ∧
    (∀ e ∈ find_best_matches corpus sector subsector contaminants flow top_n,
      0 < totalOf e) ∧
    List.Pairwise (StableDesc totalOf scoredIdx)
      (find_best_matches corpus sector subsector contaminants flow top_n) := by
  unfold find_best_matches
  by_cases hc : corpus = []
  · rw [if_pos hc]
    simp
  · rw [if_neg hc]
    dsimp only
    refine ⟨?_, ?_, ?_⟩
    · refine le_trans (List.length_filter_le _ _) ?_
      rw [List.length_take]
      exact min_le_left _ _
    · intro e he
      exact of_decide_eq_true (List.mem_filter.mp he).2
    · exact List.Pairwise.sublist
        ((List.filter_sublist _).trans (List.take_sublist _ _))
        (pairwise_sortDescBy pairwise_idx_scoreIndexed)

/-- C5 (amended, V2 side): when the corpus is empty or no case receives
a positive total score against the context, find_best_matches returns
the empty list and substitutes nothing. -/
theorem C5_v2_returns_empty (corpus : List Case) (sector subsector : String)
    (contaminants : List String) (flow : Option ℚ) (top_n : Nat)
    (h : ∀ c ∈ corpus,
      (score_case c ⟨sector, subsector, contaminants, flow⟩).total_score ≤ 0) :
    find_best_matches corpus sector subsector contaminants flow top_n = [] := by
  unfold find_best_matches
  by_cases hc : corpus = []
  · rw [if_pos hc]
  · rw [if_neg hc]
    dsimp only
    refine List.filter_eq_nil_iff.mpr ?_
    intro e he
    have hm := mem_scoreIndexed (mem_sortDescBy (List.mem_of_mem_take he))
    simp only [decide_eq_true_eq, not_lt]
    rw [totalOf, hm.2]
    exact h _ hm.1

/-- C5 witness: a singleton corpus whose one case scores zero against an
empty user context yields the empty match list. -/
theorem C5_witness :
    (∀ c ∈ [({ application_type := "Municipal Sewage" } : Case)],
      (score_case c ⟨"", "", [], none⟩).total_score ≤ 0) ∧
    find_best_matches [({ application_type := "Municipal Sewage" } : Case)]
      "" "" [] none 3 = [] := by
  have h : ∀ c ∈ [({ application_type := "Municipal Sewage" } : Case)],
      (score_case c ⟨"", "", [], none⟩).total_score ≤ 0 := by
    intro c hc
    have hcc := List.mem_singleton.mp hc
    subst hcc
    have he : (score_case ({ application_type := "Municipal Sewage" } : Case)
        ⟨"", "", [], none⟩).total_score =
        (0 + 0) * wSemantic + 0 * wContaminant + 0 * wFlow := rfl
    rw [he]
    norm_num
  exact ⟨h, C5_v2_returns_empty _ "" "" [] none 3 h⟩

/-- C5 counterexample: the V1 two_pass_filter does substitute corpus
cases.  With a singleton corpus, empty keywords and no flow, the one
case scores zero, pass one finds no candidate, and the low-signal
fallback returns the first corpus cases instead of the empty list. -/
theorem C5_counterexample :
    keyword_score ({ id := 7, application_type := "Municipal Sewage" } : Case) [] [] [] = 0 ∧
    two_pass_filter [({ id := 7, application_type := "Municipal Sewage" } : Case)]
      [] [] [] none =
      [({ id := 7, application_type := "Municipal Sewage" } : Case)] ∧
    two_pass_filter [({ id := 7, application_type := "Municipal Sewage" } : Case)]
      [] [] [] none ≠ [] := by
  refine ⟨rfl, rfl, ?_⟩
  intro h
  have h2 : two_pass_filter [({ id := 7, application_type := "Municipal Sewage" } : Case)]
      [] [] [] none =
      [({ id := 7, application_type := "Municipal Sewage" } : Case)] := rfl
  rw [h2] at h
  exact absurd h (by simp)

/-- C6: the V2 contaminant token table classifies a text containing only
the word phosphorus into the pH category, because the bare token is a
substring of phosphorus; the V1 table, whose source comment documents
the fix for exactly this false positive, does not. -/
theorem C6_ph_substring_collision :
    "ph" ∈ detect_contaminants_v2 "total phosphorus: 10 mg/l" ∧
    "ph" ∉ detect_contaminants_v1 "total phosphorus: 10 mg/l" := by
  have h2 : detect_contaminants_v2 "total phosphorus: 10 mg/l" = ["nutrients", "ph"] := rfl
  have h1 : detect_contaminants_v1 "total phosphorus: 10 mg/l" = ["nutrients"] := rfl
  rw [h1, h2]
  refine ⟨by simp, by simp⟩

/-- Concrete case for the C8 counterexample: its text matches the user
sector and subsector, its influent matches a contaminant and its flow
range contains the user flow. -/
def caseRestaurant : Case :=
  { id := 1
    application_type := "Commercial Restaurant"
    description := "Kitchen wastewater"
    influent_characteristics := "BOD: 800"
    typical_flow_range := "50-150" }

/-- The matching user context for the C8 counterexample. -/
def ucRestaurant : UserContext :=
  ⟨"commercial", "restaurant", ["organics"], some 100⟩

/-- C8 counterexample: a case matching on sector, subsector, contaminant
and flow at once produces a V2 explanation list with four entries, not
at most three. -/
theorem C8_counterexample :
    (score_case caseRestaurant ucRestaurant).explanation.length = 4 ∧
    ¬ ((score_case caseRestaurant ucRestaurant).explanation.length ≤ 3) := by
  have h : (score_case caseRestaurant ucRestaurant).explanation.length = 4 := rfl
  refine ⟨h, ?_⟩
  rw [h]
  omega

/-- The semantic sub-explanation holds at most two entries: one sector
line and one line from the single subsector strategy that fires. -/
theorem calc_sem_expl_length (us uss : String) (case : Case) :
    (calculate_semantic_score us uss case).2.length ≤ 2 := by
  unfold calculate_semantic_score
  dsimp only
  have hgen : ∀ p q : ℚ × List String, p.2.length ≤ 1 → q.2.length ≤ 1 →
      ((p.1 + q.1, p.2 ++ q.2) : ℚ × List String).2.length ≤ 2 := by
    intro p q h1 h2
    simp only [List.length_append]
    omega
  refine hgen _ _ ?_ ?_
  · split
    · simp
    · split <;> simp
  · split
    · simp
    · split
      · simp
      · split
        · simp
        · split <;> simp

/-- C8 (amended): the V2 explanation list carries at most four entries,
in semantic, contaminant, flow order by construction, and the V1
explanation builder generate_why_relevant truncates to three. -/
theorem C8_explanation_bounds :
    (∀ (case : Case) (uc : UserContext),
      (score_case case uc).explanation.length ≤ 4) ∧
    (∀ (case : Case) (subsector_keywords sector_keywords contaminants : List String)
      (user_flow : Option ℚ),
      (generate_why_relevant case subsector_keywords sector_keywords contaminants
        user_flow).length ≤ 3) := by
  constructor
  · intro case uc
    have hsem := calc_sem_expl_length uc.sector uc.subsector case
    unfold score_case
    dsimp only
    simp only [List.length_append]
    have h2 : (if (calculate_contaminant_score uc.contaminants case).2 = []
        then ([] : List String)
        else ["Contaminants: "
          ++ joinComma (calculate_contaminant_score uc.contaminants case).2]).length ≤ 1 := by
      split <;> simp
    have h3 : (if flowTruthy uc.flow
        then ["Flow: " ++ (calculate_flow_score uc.flow case).2]
        else ([] : List String)).length ≤ 1 := by
      split <;> simp
    omega
  · intro case subsector_keywords sector_keywords contaminants user_flow
    unfold generate_why_relevant
    dsimp only
    rw [List.length_take]
    exact min_le_left _ _

/-- The semantic sub-score is a sum of nonnegative contributions. -/
theorem calc_sem_nonneg (us uss : String) (case : Case) :
    0 ≤ (calculate_semantic_score us uss case).1 := by
  unfold calculate_semantic_score
  dsimp only
  have hgen : ∀ p q : ℚ × List String, 0 ≤ p.1 → 0 ≤ q.1 →
      0 ≤ ((p.1 + q.1, p.2 ++ q.2) : ℚ × List String).1 := by
    intro p q h1 h2
    dsimp only
    linarith
  refine hgen _ _ ?_ ?_
  · split
    · norm_num
    · split <;> norm_num
  · split
    · norm_num
    · split
      · norm_num
      · split
        · norm_num
        · split
          · norm_num
          · dsimp only
            positivity

/-- The contaminant sub-score reads the case only through its influent
text. -/
theorem contaminant_score_congr (cats : List String) {c1 c2 : Case}
    (h : c1.influent_characteristics = c2.influent_characteristics) :
    calculate_contaminant_score cats c1 = calculate_contaminant_score cats c2 := by
  unfold calculate_contaminant_score
  rw [h]

/-- The flow sub-score reads the case only through its flow-range text. -/
theorem flow_score_congr (uf : Option ℚ) {c1 c2 : Case}
    (h : c1.typical_flow_range = c2.typical_flow_range) :
    calculate_flow_score uf c1 = calculate_flow_score uf c2 := by
  unfold calculate_flow_score
  rw [h]

/-- A case text with no sector term, no subsector phrase, no subsector
synonym and no subsector word receives semantic sub-score zero. -/
theorem calc_sem_zero (us uss : String) (case : Case)
    (hsec : us ≠ "" → ∀ t ∈ us :: dictGet SECTOR_SYNONYMS us,
      pyIn t (caseText case) = false)
    (hdir : pyIn (underscoreToSpace uss) (caseText case) = false)
    (hsyn : ∀ t ∈ dictGet SUBSECTOR_SYNONYMS uss, pyIn t (caseText case) = false)
    (hwords : ∀ w ∈ splitWords (underscoreToSpace uss),
      pyIn w (caseText case) = false) :
    (calculate_semantic_score us uss case).1 = 0 := by
  unfold calculate_semantic_score
  dsimp only
  have h1 : (if us = "" then ((0 : ℚ), ([] : List String))
      else
        match (us :: dictGet SECTOR_SYNONYMS us).find?
            (fun t => pyIn t (caseText case)) with
        | some t => ((8 : ℚ), ["Sector match: " ++ t ++ " in case"])
        | none => ((0 : ℚ), ([] : List String))).1 = 0 := by
    by_cases hus : us = ""
    · rw [if_pos hus]
    · rw [if_neg hus]
      have hfind : (us :: dictGet SECTOR_SYNONYMS us).find?
          (fun t => pyIn t (caseText case)) = none := by
        refine List.find?_eq_none.mpr ?_
        intro t ht
        rw [hsec hus t ht]
        simp
      rw [hfind]
  have h2 : (if uss = "" then ((0 : ℚ), ([] : List String))
      else if pyIn (underscoreToSpace uss) (caseText case) then
        ((15 : ℚ), ["Direct subsector match: " ++ uss])
      else
        match (dictGet SUBSECTOR_SYNONYMS uss).find?
            (fun t => pyIn t (caseText case)) with
        | some t => ((12 : ℚ), ["Synonym match: " ++ t])
        | none =>
          if (splitWords (underscoreToSpace uss)).filter
              (fun w => pyIn w (caseText case)) = [] then ((0 : ℚ), ([] : List String))
          else
            (5 * (((splitWords (underscoreToSpace uss)).filter
                (fun w => pyIn w (caseText case))).length : ℚ) /
                ((splitWords (underscoreToSpace uss)).length : ℚ),
              ["Partial match: " ++ joinComma ((splitWords (underscoreToSpace uss)).filter
                (fun w => pyIn w (caseText case)))])).1 = 0 := by
    by_cases huss : uss = ""
    · rw [if_pos huss]
    · rw [if_neg huss, hdir]
      have hfind : (dictGet SUBSECTOR_SYNONYMS uss).find?
          (fun t => pyIn t (caseText case)) = none := by
        refine List.find?_eq_none.mpr ?_
        intro t ht
        rw [hsyn t ht]
        simp
      have hfilter : (splitWords (underscoreToSpace uss)).filter
          (fun w => pyIn w (caseText case)) = [] := by
        refine List.filter_eq_nil_iff.mpr ?_
        intro w hw
        rw [hwords w hw]
        simp
      simp only [Bool.false_eq_true, if_false]
      rw [hfind, hfilter]
      simp
  rw [h1, h2]
  norm_num

/-- C9: all else equal (same influent text and flow range), a case whose
searchable text contains the exact subsector phrase of the user scores
at least as high in total as a case with no sector or subsector textual
overlap at all. -/
theorem C9_subsector_monotone (caseA caseB : Case) (uc : UserContext)
    (_hsub : uc.subsector ≠ "")
    (_hA : pyIn (underscoreToSpace uc.subsector) (caseText caseA) = true)
    (hBsec : uc.sector ≠ "" → ∀ t ∈ uc.sector :: dictGet SECTOR_SYNONYMS uc.sector,
      pyIn t (caseText caseB) = false)
    (hBdir : pyIn (underscoreToSpace uc.subsector) (caseText caseB) = false)
    (hBsyn : ∀ t ∈ dictGet SUBSECTOR_SYNONYMS uc.subsector,
      pyIn t (caseText caseB) = false)
    (hBwords : ∀ w ∈ splitWords (underscoreToSpace uc.subsector),
      pyIn w (caseText caseB) = false)
    (hinf : caseB.influent_characteristics = caseA.influent_characteristics)
    (hflow : caseB.typical_flow_range = caseA.typical_flow_range) :
    (score_case caseB uc).total_score ≤ (score_case caseA uc).total_score := by
  have hsemB : (calculate_semantic_score uc.sector uc.subsector caseB).1 = 0 :=
    calc_sem_zero uc.sector uc.subsector caseB hBsec hBdir hBsyn hBwords
  have hsemA : 0 ≤ (calculate_semantic_score uc.sector uc.subsector caseA).1 :=
    calc_sem_nonneg uc.sector uc.subsector caseA
  have hcon := contaminant_score_congr uc.contaminants hinf
  have hflo := flow_score_congr uc.flow hflow
  unfold score_case
  dsimp only
  rw [hcon, hflo, hsemB]
  have hw : wSemantic = 3 / 2 := rfl
  nlinarith [hsemA]

/-- Concrete matching case for the C9 witness. -/
def caseFoodC9 : Case :=
  { id := 1
    application_type := "Food Service Facility"
    influent_characteristics := "BOD: 500"
    typical_flow_range := "100-1000" }

/-- Concrete non-overlapping case for the C9 witness. -/
def caseMuniC9 : Case :=
  { id := 2
    application_type := "Municipal Sewage"
    description := "Domestic wastewater"
    influent_characteristics := "BOD: 500"
    typical_flow_range := "100-1000" }

/-- C9 witness: the subsector-matching case dominates the overlap-free
case at a concrete user context. -/
theorem C9_witness :
    (score_case caseMuniC9 ⟨"", "food_service", [], none⟩).total_score ≤
      (score_case caseFoodC9 ⟨"", "food_service", [], none⟩).total_score := by
  refine C9_subsector_monotone caseFoodC9 caseMuniC9 ⟨"", "food_service", [], none⟩
    (by decide) rfl (fun h => absurd rfl h) rfl (by decide) (by decide) rfl rfl

/-- Water data for the C7 counterexample: its serialized dump carries a
flow figure of 2000000 cubic meters per day, far above the sanity bound. -/
def wdC7 : WaterDataV2 :=
  { sector := some "industrial"
    subsector := some "textile_manufacturing"
    dump := some "Wastewater Generated: 2000000 m3/d" }

/-- C7 counterexample: the V2 regex flow detection accepts the value
2000000 into the UserContext although it exceeds the 1000000 upper
sanity bound, so out-of-bound regex hits are not treated as not-found. -/
theorem C7_counterexample :
    (extract_user_context wdC7 {}).flow = some 2000000 ∧
      ¬ ((2000000 : ℚ) ≤ 1000000) := by
  have h : (extract_user_context wdC7 {}).flow =
      some (ratOfNumChars ['2', '0', '0', '0', '0', '0', '0']) := rfl
  have e : ratOfNumChars ['2', '0', '0', '0', '0', '0', '0'] = ((2000000 : Nat) : ℚ) :=
    ratOfNumChars_of_digits rfl rfl rfl
  rw [h, e]
  norm_num

/-- C7 (amended, V1 side): every flow the structured-field scan of V1
accepts lies inside the sanity bound between one tenth and one million
cubic meters per day. -/
theorem C7_v1_flow_bound (sections : List SectionRec) (v : ℚ)
    (h : detect_user_flow sections = some v) : 1 / 10 ≤ v ∧ v ≤ 1000000 := by
  unfold detect_user_flow at h
  obtain ⟨f, _, hv⟩ := List.exists_of_findSome?_eq_some h
  unfold fieldFlow? at hv
  split at hv
  · split at hv
    · simp at hv
    · split at hv
      · simp at hv
      · split at hv
        · simp at hv
        · dsimp only at hv
          split at hv
          · rename_i hcond
            simp only [Option.some.injEq] at hv
            subst hv
            exact hcond
          · simp at hv
  · simp at hv

/-- The structured field used by the C7 witness. -/
def fieldC7 : FieldRec :=
  { label := "Water Consumption"
    value := some "500"
    unit := some "m³/day" }

/-- The technical section used by the C7 witness. -/
def sectionC7 : SectionRec :=
  { fields := [fieldC7] }

/-- C7 witness: a concrete structured field of 500 cubic meters per day
is accepted and the theorem yields its sanity bound. -/
theorem C7_witness :
    (1 : ℚ) / 10 ≤ (1 * ((500 : Nat) : ℚ)) * 1 ∧
      (1 * ((500 : Nat) : ℚ)) * 1 ≤ 1000000 := by
  have h2 : fieldFlow? fieldC7 =
      if (1 : ℚ) / 10 ≤ (1 * ((500 : Nat) : ℚ)) * 1 ∧
          (1 * ((500 : Nat) : ℚ)) * 1 ≤ 1000000
      then some ((1 * ((500 : Nat) : ℚ)) * 1) else none := rfl
  have hn : detect_user_flow [sectionC7] = some ((1 * ((500 : Nat) : ℚ)) * 1) := by
    unfold detect_user_flow
    have hflat : [sectionC7].flatMap (fun s => s.fields) = [fieldC7] := rfl
    rw [hflat, List.findSome?_cons, h2, if_pos (by norm_num)]
  exact C7_v1_flow_bound [sectionC7] _ hn

/-- C1 counterexample: the V2 entry point called with a missing water
data object raises ModelRetry (an exception that propagates to the
calling agent loop and consumes its retry budget) instead of returning a
MatchResult. -/
theorem C1_counterexample :
    get_engineering_references_v2 (some []) ⟨none, {}⟩ =
      Except.error ("Water project data unavailable. Proceed with general engineering analysis "
        ++ "using established industry best practices.") := rfl

/-- The fallback MatchResult the V1 entry point returns on missing water
data. -/
def fallbackNoWater : MatchResult :=
  { similar_cases := []
    user_sector := "unknown"
    user_subsector := "unknown"
    total_found := 0
    message := "Water project data unavailable. Proceeding with general engineering analysis."
    status := "fallback" }

/-- C1 (amended, V1 side): the wired V1 entry point is a total function
into MatchResult (no raise statement exists in its body); on missing
water data it returns the fallback result with empty similar_cases, and
on an unavailable knowledge base it returns a result with empty
similar_cases. -/
theorem C1_v1_never_raises (kb : Option (List Case)) (ctx : CtxV1) :
    (ctx.water_data = none →
      get_engineering_references_v1 kb ctx = fallbackNoWater) ∧
    (kb = none → (get_engineering_references_v1 kb ctx).similar_cases = []) := by
  constructor
  · intro h
    unfold get_engineering_references_v1
    rw [h]
    rfl
  · intro h
    subst h
    unfold get_engineering_references_v1
    cases hw : ctx.water_data with
    | none => rfl
    | some wd => rfl

/-- C1 witness: the amended statement applied at a missing water data
object over a missing knowledge base. -/
theorem C1_witness :
    get_engineering_references_v1 none ⟨none, {}⟩ = fallbackNoWater ∧
      (get_engineering_references_v1 none ⟨none, {}⟩).similar_cases = [] :=
  ⟨(C1_v1_never_raises none ⟨none, {}⟩).1 rfl,
    (C1_v1_never_raises none ⟨none, {}⟩).2 rfl⟩
